import Mathlib

/-!
Verification of the orchestration workflow of the Autonomous AI Tutor
Orchestrator (orchestrator/app/workflow.py, database.py, main.py).

The Python code is shallowly embedded: pure helpers become Lean functions
over `String`/`List Char`; the LLM call, the JSON decoder and the HTTP
client are external libraries and are modelled as explicit parameters
(`Except`-valued outcomes), so that every fallback branch of the source is
represented exactly.  Python string operations are modelled over ASCII
(lowercasing, whitespace, digits), which covers every string the
repository manipulates.
-/

namespace Tutor

/-- character code 39, used to build string literals containing an
apostrophe. -/
def apos : String := String.singleton (Char.ofNat 39)

/-- ASCII lower-casing of one character, the behaviour of Python
str.lower on the ASCII range. -/
def toLowerChar (c : Char) : Char :=
  if 65 ≤ c.toNat ∧ c.toNat ≤ 90 then Char.ofNat (c.toNat + 32) else c

/-- model of Python str.lower (ASCII range). -/
def pyLowerStr (s : String) : String := String.mk (s.data.map toLowerChar)

/-- ASCII whitespace, the characters matched by Python str.strip and by
the regex class backslash-s on ASCII text. -/
def pyIsSpace (c : Char) : Bool :=
  c = ' ' || c = '\t' || c = '\n' || c = '\r' || c = '\x0b' || c = '\x0c'

/-- model of Python str.strip on a character list. -/
def stripL (l : List Char) : List Char :=
  ((l.dropWhile pyIsSpace).reverse.dropWhile pyIsSpace).reverse

/-- whether the first list is an initial segment of the second,
the behaviour of Python str.startswith. -/
def leadsWith : List Char → List Char → Bool
  | [], _ => true
  | _ :: _, [] => false
  | a :: as, b :: bs => a == b && leadsWith as bs

/-- whether the first list occurs as a contiguous sublist of the second. -/
def containsSub (needle : List Char) : List Char → Bool
  | [] => needle.isEmpty
  | c :: t => leadsWith needle (c :: t) || containsSub needle t

/-- model of the Python membership check needle in hay on strings. -/
def pyIn (needle hay : String) : Bool := containsSub needle.data hay.data

/-- value of a decimal digit list, as Python int applied to the digits
captured by the regex group. -/
def digitsToNat (l : List Char) : Nat :=
  l.foldl (fun a c => a * 10 + (c.toNat - 48)) 0

/-- attempt to match the regex Level backslash-s* (backslash-d+) at the
head of the list, returning the captured number. -/
def matchLevelAt (l : List Char) : Option Nat :=
  match l with
  | 'L' :: 'e' :: 'v' :: 'e' :: 'l' :: rest =>
    let afterSpace := rest.dropWhile pyIsSpace
    let digits := afterSpace.takeWhile Char.isDigit
    if digits.isEmpty then none else some (digitsToNat digits)
  | _ => none

/-- model of re.search for the pattern Level backslash-s* (backslash-d+):
the leftmost position at which the whole pattern matches wins. -/
def searchLevel : List Char → Option Nat
  | [] => none
  | c :: t =>
    match matchLevelAt (c :: t) with
    | some n => some n
    | none => searchLevel t

/-! Data model, from orchestrator/app/schemas.py. -/

/-- chat role enum. -/
inductive Role where
  | user
  | assistant
deriving DecidableEq

/-- teaching style enum. -/
inductive TeachingStyle where
  | direct
  | socratic
  | visual
  | flipped_classroom
deriving DecidableEq

/-- emotional state enum. -/
inductive EmotionalState where
  | focused
  | anxious
  | confused
  | tired
deriving DecidableEq

/-- tool intent enum. -/
inductive ToolIntent where
  | flashcard_generator
  | note_maker
  | concept_explainer
  | quiz_generator
  | unknown
deriving DecidableEq

/-- chat message. -/
structure Message where
  role : Role
  content : String
deriving DecidableEq

/-- user info given to the workflow, the six string fields of the
UserInfo pydantic model. -/
structure UserInfo where
  user_id : String
  name : String
  grade_level : String
  learning_style_summary : String
  emotional_state_summary : String
  mastery_level_summary : String
deriving DecidableEq

/-- educational context assembled by the context-inference stage.
Mastery levels are the integers 1..10 of the MasteryLevel enum. -/
structure EducationalContext where
  teaching_style : TeachingStyle
  emotional_state : EmotionalState
  mastery_level : Nat
  inferred_difficulty : String
deriving DecidableEq

/-- a JSON-scalar parameter value, enough for the fallback parameter
maps of workflow.py. -/
inductive PValue where
  | str : String → PValue
  | nat : Nat → PValue
  | bool : Bool → PValue
deriving DecidableEq

/-- an extracted-parameter dictionary, as an association list. -/
abbrev Params := List (String × PValue)

/-- a tool API response dictionary, represented by the three keys the
orchestrator reads (success, data, error).  Every dictionary the code
itself constructs has this shape and is non-empty, so Python dict
truthiness coincides with presence of the `Option`. -/
structure ApiResp where
  success : Bool
  data : Params
  error : Option String
deriving DecidableEq

/-- the LangGraph workflow state record. -/
structure WorkflowState where
  user_id : String
  session_id : String
  message : String
  chat_history : List Message
  user_info : Option UserInfo
  educational_context : Option EducationalContext
  intent : Option ToolIntent
  extracted_parameters : Params
  api_response : Option ApiResp
  final_response : Option String
deriving DecidableEq

/-! Database, from orchestrator/app/database.py. -/

/-- a stored user-profile record (the columns the workflow reads). -/
structure UserProfileRec where
  user_id : String
  name : String
  grade_level : String
  learning_style_summary : String
  emotional_state_summary : String
  mastery_level_summary : String
  preferred_teaching_style : TeachingStyle
  current_emotional_state : EmotionalState
  current_mastery_level : Nat
deriving DecidableEq

/-- sample user student123 (Charlie). -/
def student123Rec : UserProfileRec :=
  { user_id := "student123"
    name := "Charlie"
    grade_level := "8"
    learning_style_summary :=
      "Kinesthetic learner, learns best through practice and repetition"
    emotional_state_summary := "Focused and motivated to improve"
    mastery_level_summary := "Level 6: Good understanding, ready for application"
    preferred_teaching_style := TeachingStyle.direct
    current_emotional_state := EmotionalState.focused
    current_mastery_level := 6 }

/-- sample user student456 (Alice). -/
def student456Rec : UserProfileRec :=
  { user_id := "student456"
    name := "Alice"
    grade_level := "10"
    learning_style_summary := "Visual learner, prefers diagrams and structured notes"
    emotional_state_summary := "Anxious about new concepts"
    mastery_level_summary := "Level 3: Building foundational knowledge"
    preferred_teaching_style := TeachingStyle.visual
    current_emotional_state := EmotionalState.anxious
    current_mastery_level := 3 }

/-- sample user student789 (Bob). -/
def student789Rec : UserProfileRec :=
  { user_id := "student789"
    name := "Bob"
    grade_level := "7"
    learning_style_summary :=
      "Auditory learner, prefers simple terms and step-by-step explanations"
    emotional_state_summary := "Confused about current topic"
    mastery_level_summary := "Level 4: Building foundational knowledge"
    preferred_teaching_style := TeachingStyle.socratic
    current_emotional_state := EmotionalState.confused
    current_mastery_level := 4 }

/-- the SAMPLE_USERS table of database.py, in insertion order. -/
def sampleUsers : List (String × UserProfileRec) :=
  [("student123", student123Rec), ("student456", student456Rec),
   ("student789", student789Rec)]

/-- Database.get_user_profile: SAMPLE_USERS.get(user_id, default
SAMPLE_USERS of student123).  Total, never raises. -/
def dbGetUserProfile (uid : String) : UserProfileRec :=
  match sampleUsers.find? (fun p => p.1 == uid) with
  | some p => p.2
  | none => student123Rec

/-! Context inference, workflow.py lines 138-173. -/

/-- keyword set whose presence marks a confused message. -/
def confusedMarkers : List String :=
  ["confused", "lost", "don" ++ apos ++ "t understand", "don" ++ apos ++ "t get"]

/-- keyword set whose presence marks an anxious message. -/
def anxiousMarkers : List String :=
  ["anxious", "nervous", "worried", "struggling", "hard"]

/-- keyword set whose presence marks a tired message. -/
def tiredMarkers : List String :=
  ["tired", "exhausted", "sleepy", "burned out"]

/-- keyword set whose presence marks a focused message. -/
def focusedMarkers : List String :=
  ["focused", "ready", "excited", "motivated"]

/-- TutorWorkflow._infer_emotional_state: scan the lowercased message for
the four marker sets in priority order, then fall back to the profile
summary, then to focused. -/
def inferEmotionalState (message current_state : String) : EmotionalState :=
  let ml := pyLowerStr message
  if confusedMarkers.any (fun w => pyIn w ml) then EmotionalState.confused
  else if anxiousMarkers.any (fun w => pyIn w ml) then EmotionalState.anxious
  else if tiredMarkers.any (fun w => pyIn w ml) then EmotionalState.tired
  else if focusedMarkers.any (fun w => pyIn w ml) then EmotionalState.focused
  else
    let cs := pyLowerStr current_state
    if pyIn "focused" cs then EmotionalState.focused
    else if pyIn "anxious" cs then EmotionalState.anxious
    else if pyIn "confused" cs then EmotionalState.confused
    else EmotionalState.focused

/-- the mastery level parsed out of a mastery summary via the Level N
regex, defaulting to 1 when the pattern is absent (workflow.py
lines 164-165). -/
def masteryFromSummary (mastery_summary : String) : Nat :=
  (searchLevel mastery_summary.data).getD 1

/-- TutorWorkflow._infer_difficulty. -/
def inferDifficulty (mastery_summary : String) (emotional_state : EmotionalState) :
    String :=
  if emotional_state = EmotionalState.anxious ∨
     emotional_state = EmotionalState.confused ∨
     emotional_state = EmotionalState.tired then "easy"
  else if emotional_state = EmotionalState.focused ∧
          7 ≤ masteryFromSummary mastery_summary then "hard"
  else "medium"

/-! Educational-context stage, workflow.py lines 100-136.  The stage body
runs inside try/except; the only failure sources are the attribute access
on a missing user_info and the profile re-fetch, so the body is embedded
as an `Except`-valued computation, generic over the profile fetch. -/

/-- the safe fallback context substituted when the stage body raises. -/
def safeDefaultContext : EducationalContext :=
  { teaching_style := TeachingStyle.direct
    emotional_state := EmotionalState.focused
    mastery_level := 1
    inferred_difficulty := "medium" }

/-- the try-block of analyze_educational_context: infer emotional state
and difficulty from the message and the user_info summaries, re-fetch the
profile, and assemble the context.  A missing user_info raises (attribute
access on None); the fetch `db` may raise. -/
def contextBody (db : String → Except String UserProfileRec) (s : WorkflowState) :
    Except String EducationalContext :=
  match s.user_info with
  | none => Except.error "AttributeError"
  | some ui =>
    let emotional_state := inferEmotionalState s.message ui.emotional_state_summary
    let inferred_difficulty := inferDifficulty ui.mastery_level_summary emotional_state
    match db s.user_id with
    | Except.error e => Except.error e
    | Except.ok user_profile =>
      Except.ok
        { teaching_style := user_profile.preferred_teaching_style
          emotional_state := emotional_state
          mastery_level := user_profile.current_mastery_level
          inferred_difficulty := inferred_difficulty }

/-- TutorWorkflow.analyze_educational_context, generic over the profile
fetch: on success store the assembled context, on any error store the
safe default; the error never escapes. -/
def analyzeEducationalContextGen (db : String → Except String UserProfileRec)
    (s : WorkflowState) : WorkflowState :=
  match contextBody db s with
  | Except.ok ctx => { s with educational_context := some ctx }
  | Except.error _ => { s with educational_context := some safeDefaultContext }

/-- the concrete profile fetch: Database.get_user_profile is total and
never raises. -/
def okDb : String → Except String UserProfileRec :=
  fun uid => Except.ok (dbGetUserProfile uid)

/-- TutorWorkflow.analyze_educational_context with the concrete database. -/
def analyzeEducationalContext (s : WorkflowState) : WorkflowState :=
  analyzeEducationalContextGen okDb s

/-! Intent classification, workflow.py lines 175-243.  The prompt build
plus LLM call is modelled as an `Except String String` outcome: error for
a raised model call (or prompt construction failure), ok for the reply
text. -/

/-- the ordered keyword to intent table scanned over the LLM reply
(Python dict iteration preserves insertion order). -/
def intentTable : List (String × ToolIntent) :=
  [("flashcard", ToolIntent.flashcard_generator),
   ("note", ToolIntent.note_maker),
   ("concept", ToolIntent.concept_explainer),
   ("explain", ToolIntent.concept_explainer),
   ("quiz", ToolIntent.quiz_generator),
   ("practice", ToolIntent.quiz_generator),
   ("question", ToolIntent.quiz_generator)]

/-- response.content.strip().lower(). -/
def replyToolName (reply : String) : String := pyLowerStr (String.mk (stripL reply.data))

/-- first table entry whose keyword occurs in the reply text. -/
def findIntentKeyword (tool_name : String) : Option ToolIntent :=
  (intentTable.find? (fun p => pyIn p.1 tool_name)).map Prod.snd

/-- flashcard word list of the deterministic fallback classifier. -/
def flashcardKeywords : List String :=
  ["flashcard", "memorize", "cards", "practice terms", "drill"]

/-- note word list of the deterministic fallback classifier. -/
def noteKeywords : List String :=
  ["note", "notes", "summary", "outline", "write"]

/-- concept word list of the deterministic fallback classifier. -/
def conceptKeywords : List String :=
  ["explain", "concept", "understand", "what is", "how does", "tell me about"]

/-- quiz word list of the deterministic fallback classifier. -/
def quizKeywords : List String :=
  ["quiz", "practice", "questions", "test", "problems", "exercises"]

/-- TutorWorkflow._analyze_intent_keywords, the deterministic keyword
classifier over the raw user message. -/
def analyzeIntentKeywords (message : String) : ToolIntent :=
  let ml := pyLowerStr message
  if flashcardKeywords.any (fun w => pyIn w ml) then ToolIntent.flashcard_generator
  else if noteKeywords.any (fun w => pyIn w ml) then ToolIntent.note_maker
  else if conceptKeywords.any (fun w => pyIn w ml) then ToolIntent.concept_explainer
  else if quizKeywords.any (fun w => pyIn w ml) then ToolIntent.quiz_generator
  else ToolIntent.unknown

/-- TutorWorkflow.analyze_intent, as a function of the model outcome and
the raw message: scan the reply against the table, falling back to the
keyword classifier when nothing matches or the model call raised. -/
def analyzeIntent (llm : Except String String) (message : String) : ToolIntent :=
  match llm with
  | Except.error _ => analyzeIntentKeywords message
  | Except.ok reply =>
    match findIntentKeyword (replyToolName reply) with
    | some intent => intent
    | none => analyzeIntentKeywords message

/-! Parameter extraction, workflow.py lines 261-322.  The model call is
an `Except String String` outcome and json.loads is an abstract decoder
`String → Option Params` (stdlib); the fence stripping is concrete. -/

/-- the try-block of _extract_parameters: obtain the model reply, strip
it, remove a Markdown code fence, and decode the JSON object. -/
def extractBody (llm : Except String String) (jsonParse : String → Option Params) :
    Except String Params :=
  match llm with
  | Except.error e => Except.error e
  | Except.ok content =>
    let t0 := stripL content.data
    let t1 :=
      if leadsWith ("```json".data) t0 then stripL ((t0.drop 7).take (t0.length - 10))
      else if leadsWith ("```".data) t0 then stripL ((t0.drop 3).take (t0.length - 6))
      else t0
    match jsonParse (String.mk t1) with
    | some params => Except.ok params
    | none => Except.error "JSONDecodeError"

/-- TutorWorkflow._get_fallback_params. -/
def fallbackParams (tool_name : String) : Params :=
  if tool_name = "flashcard_generator" then
    [("topic", PValue.str "general"), ("count", PValue.nat 5),
     ("difficulty", PValue.str "medium"), ("subject", PValue.str "general"),
     ("include_examples", PValue.bool true)]
  else if tool_name = "note_maker" then
    [("topic", PValue.str "general"), ("subject", PValue.str "general"),
     ("note_taking_style", PValue.str "structured"),
     ("include_examples", PValue.bool true),
     ("include_analogies", PValue.bool false)]
  else if tool_name = "concept_explainer" then
    [("concept_to_explain", PValue.str "general concept"),
     ("current_topic", PValue.str "general"),
     ("desired_depth", PValue.str "intermediate")]
  else if tool_name = "quiz_generator" then
    [("topic", PValue.str "general"), ("subject", PValue.str "general"),
     ("difficulty", PValue.str "intermediate"),
     ("question_type", PValue.str "practice"),
     ("num_questions", PValue.nat 10)]
  else []

/-- TutorWorkflow._extract_parameters: store the decoded parameters, or
the fixed per-tool fallback map when the body raised. -/
def extractParameters (tool_name : String) (llm : Except String String)
    (jsonParse : String → Option Params) (s : WorkflowState) : WorkflowState :=
  match extractBody llm jsonParse with
  | Except.ok params => { s with extracted_parameters := params }
  | Except.error _ => { s with extracted_parameters := fallbackParams tool_name }

/-! Dispatch, workflow.py lines 324-376.  The HTTP client is modelled by
the outcome of the single POST; the function additionally returns the
list of POSTs performed, each with its timeout in seconds, so that the
at-most-one-call property is statable. -/

/-- outcome of the one POST the dispatcher may perform: an HTTP status
with decoded body, or a raised network/timeout exception message. -/
inductive DispatchOutcome where
  | status : Nat → ApiResp → DispatchOutcome
  | exc : String → DispatchOutcome
deriving DecidableEq

/-- a performed POST: target URL and timeout in seconds. -/
structure PostRecord where
  url : String
  timeout : Nat
deriving DecidableEq

/-- the tool_mapping dictionary: base URL per intent; the UNKNOWN key is
absent, so the lookup yields none. -/
def apiUrlFor : ToolIntent → Option String
  | ToolIntent.flashcard_generator => some "http://localhost:8001"
  | ToolIntent.note_maker => some "http://localhost:8002"
  | ToolIntent.concept_explainer => some "http://localhost:8003"
  | ToolIntent.quiz_generator => some "http://localhost:8004"
  | ToolIntent.unknown => none

/-- how dispatch_to_api turns the POST outcome into the stored
api_response: 200 keeps the body, any other status synthesizes an API
server error, an exception synthesizes a connection error. -/
def interpretOutcome (outcome : DispatchOutcome) : ApiResp :=
  match outcome with
  | DispatchOutcome.status code body =>
    if code = 200 then body
    else
      { success := false, data := [],
        error := some ("API server error: " ++ toString code) }
  | DispatchOutcome.exc msg =>
    { success := false, data := [], error := some ("Connection error: " ++ msg) }

/-- the api_response synthesized when the intent has no configured URL. -/
def toolNotConfiguredResp : ApiResp :=
  { success := false, data := [], error := some "Tool not configured" }

/-- TutorWorkflow.dispatch_to_api.  UNKNOWN intent returns the state
untouched with no POST; an unresolvable URL (intent absent from the
mapping, e.g. a missing intent) stores a Tool-not-configured error with
no POST; otherwise exactly one POST to url/invoke with a 60 second
timeout is performed and its outcome interpreted. -/
def dispatchToApi (outcome : DispatchOutcome) (s : WorkflowState) :
    WorkflowState × List PostRecord :=
  if s.intent = some ToolIntent.unknown then (s, [])
  else
    match s.intent.bind apiUrlFor with
    | none => ({ s with api_response := some toolNotConfiguredResp }, [])
    | some api_url =>
      ({ s with api_response := some (interpretOutcome outcome) },
       [{ url := api_url ++ "/invoke", timeout := 60 }])

/-! Response formatting, workflow.py lines 378-419. -/

/-- enum value string of an intent. -/
def toolValue : ToolIntent → String
  | ToolIntent.flashcard_generator => "flashcard_generator"
  | ToolIntent.note_maker => "note_maker"
  | ToolIntent.concept_explainer => "concept_explainer"
  | ToolIntent.quiz_generator => "quiz_generator"
  | ToolIntent.unknown => "unknown"

/-- value.replace of underscores by spaces. -/
def underscoreToSpace (s : String) : String :=
  String.mk (s.data.map (fun c => if c = '_' then ' ' else c))

/-- TutorWorkflow._get_adaptation_note. -/
def adaptationNote (context : EducationalContext) : String :=
  let emotional :=
    if context.emotional_state = EmotionalState.anxious then ["simplified for comfort"]
    else if context.emotional_state = EmotionalState.confused then
      ["broken down into simpler concepts"]
    else if context.emotional_state = EmotionalState.tired then
      ["made concise for easy digestion"]
    else []
  let style :=
    if context.teaching_style = TeachingStyle.visual then ["enhanced with visual elements"]
    else if context.teaching_style = TeachingStyle.socratic then
      ["structured to encourage thinking"]
    else []
  let adaptations := emotional ++ style
  if adaptations.isEmpty then "Tailored to your learning preferences."
  else "Adaptations: " ++ String.intercalate ", " adaptations ++ "."

/-- the fixed clarification message produced for UNKNOWN intent. -/
def unknownClarification : String :=
  "I understand you need help with learning. Could you please specify if you" ++
  apos ++ "d like flashcards, notes, concept explanations, or practice questions?"

/-- the failure template surfacing a tool error to the user. -/
def issueTemplate (err : String) : String :=
  "I encountered an issue while processing your request: " ++ err ++ ". Please try again."

/-- TutorWorkflow.format_response.  json.dumps of the data payload is the
abstract `dumps` parameter (stdlib serializer).  The success branch reads
intent and educational_context without a guard, so a missing one raises
(surfaced as `Except.error`); both failure branches are total. -/
def formatResponse (dumps : Params → String) (s : WorkflowState) :
    Except String WorkflowState :=
  if s.intent = some ToolIntent.unknown then
    Except.ok { s with final_response := some unknownClarification }
  else if (s.api_response.map ApiResp.success).getD false then
    match s.api_response, s.intent, s.educational_context with
    | some resp, some intent, some context =>
      Except.ok { s with final_response := some (
        "I" ++ apos ++ "ve generated " ++ underscoreToSpace (toolValue intent) ++
        " for you, adapted to your learning needs.\n" ++ adaptationNote context ++
        "\nHere are your results:\n\n" ++ dumps resp.data) }
    | _, _, _ => Except.error "AttributeError"
  else
    Except.ok { s with final_response := some (issueTemplate
      (match s.api_response with
       | some resp => resp.error.getD "Unknown error"
       | none => "No response from tool")) }

/-- TutorWorkflow.route_by_intent: conditional edge selection after
intent analysis; routing.get with default format_response. -/
def routeByIntent (s : WorkflowState) : String :=
  match s.intent with
  | some ToolIntent.flashcard_generator => "extract_flashcard_params"
  | some ToolIntent.note_maker => "extract_note_params"
  | some ToolIntent.concept_explainer => "extract_concept_params"
  | some ToolIntent.quiz_generator => "extract_quiz_params"
  | some ToolIntent.unknown => "format_response"
  | none => "format_response"

/-! User-profile endpoint, main.py lines 49-56.  The handler wraps the
store lookup in try/except mapping any exception to HTTP 404, but
Database.get_user_profile is total (dict .get with a default), so the
404 branch is unreachable and the handler always returns the looked-up
record. -/

/-- result of GET /user/user_id. -/
inductive UserHttpResult where
  | ok : UserProfileRec → UserHttpResult
  | notFound : String → UserHttpResult
deriving DecidableEq

/-- whether a result is the 404 response. -/
def isNotFound : UserHttpResult → Bool
  | UserHttpResult.notFound _ => true
  | UserHttpResult.ok _ => false

/-- the GET /user/user_id handler. -/
def getUserProfileEndpoint (uid : String) : UserHttpResult :=
  UserHttpResult.ok (dbGetUserProfile uid)

/-! Shared concrete inputs for witness theorems. -/

/-- a minimal workflow state as initialized by the chat endpoint. -/
def demoState : WorkflowState :=
  { user_id := "student123"
    session_id := "sess-1"
    message := "hello there"
    chat_history := []
    user_info := none
    educational_context := none
    intent := none
    extracted_parameters := []
    api_response := none
    final_response := none }

/-! Claim theorems. -/

/-- C1: for every mastery summary and inferred emotional state,
_infer_difficulty is easy when the state is anxious, confused or tired;
hard when the state is focused and the mastery level parsed from the
summary via the Level N pattern (default 1 when absent) is at least 7;
and medium in every other case (i.e. focused with mastery below 7). -/
theorem C1_infer_difficulty (summary : String) (es : EmotionalState) :
    ((es = EmotionalState.anxious ∨ es = EmotionalState.confused ∨
        es = EmotionalState.tired) → inferDifficulty summary es = "easy") ∧
    (es = EmotionalState.focused → 7 ≤ masteryFromSummary summary →
        inferDifficulty summary es = "hard") ∧
    (es = EmotionalState.focused → masteryFromSummary summary < 7 →
        inferDifficulty summary es = "medium") := by
  refine ⟨fun h => ?_, fun hf h7 => ?_, fun hf h7 => ?_⟩
  · rcases h with h | h | h <;> subst h <;> rfl
  · subst hf
    simp [inferDifficulty, h7]
  · subst hf
    simp [inferDifficulty, Nat.not_le.mpr h7]

/-- witness for C1 at concrete summaries and states. -/
theorem C1_witness :
    inferDifficulty "Level 3: Building foundational knowledge" EmotionalState.anxious =
      "easy" ∧
    inferDifficulty "Level 9: expert" EmotionalState.focused = "hard" ∧
    inferDifficulty "Level 3: Building foundational knowledge" EmotionalState.focused =
      "medium" :=
  ⟨(C1_infer_difficulty "Level 3: Building foundational knowledge"
      EmotionalState.anxious).1 (Or.inl rfl),
   (C1_infer_difficulty "Level 9: expert" EmotionalState.focused).2.1 rfl (by decide),
   (C1_infer_difficulty "Level 3: Building foundational knowledge"
      EmotionalState.focused).2.2 rfl (by decide)⟩

/-- C2: for every profile fetch (including a raising one) and every input
state, after the educational-context stage the state carries a non-null
context, and whenever the stage body raised internally the context is
exactly the safe default (direct, focused, level 1, medium); the error
never propagates because the stage is a total function. -/
theorem C2_context_stage_safe (db : String → Except String UserProfileRec)
    (s : WorkflowState) :
    ((analyzeEducationalContextGen db s).educational_context).isSome = true ∧
    (∀ e, contextBody db s = Except.error e →
        (analyzeEducationalContextGen db s).educational_context =
          some safeDefaultContext) := by
  constructor
  · cases h : contextBody db s <;> simp [analyzeEducationalContextGen, h]
  · intro e he
    simp [analyzeEducationalContextGen, he]

/-- witness for C2: a state with no user_info makes the stage body raise
and the stage stores the safe default context. -/
theorem C2_witness :
    (analyzeEducationalContextGen okDb demoState).educational_context =
      some safeDefaultContext :=
  (C2_context_stage_safe okDb demoState).2 "AttributeError" rfl

/-- C3: every message whose lowercased text contains confused or
don t-understand is classified CONFUSED regardless of the profile
summary, because the confused marker set is checked first. -/
theorem C3_confused_first (message current_state : String)
    (h : pyIn "confused" (pyLowerStr message) = true ∨
         pyIn ("don" ++ apos ++ "t understand") (pyLowerStr message) = true) :
    inferEmotionalState message current_state = EmotionalState.confused := by
  have hany : confusedMarkers.any (fun w => pyIn w (pyLowerStr message)) = true := by
    rcases h with h | h <;> simp [confusedMarkers, h]
  simp [inferEmotionalState, hany]

/-- witness for C3 at a concrete confused message against a focused
profile. -/
theorem C3_witness :
    inferEmotionalState "I am confused about fractions" "Focused and motivated to improve" =
      EmotionalState.confused :=
  C3_confused_first "I am confused about fractions" "Focused and motivated to improve"
    (Or.inl (by decide))

/-- C4: whenever the extraction body fails (model call raised or the
fence-stripped reply did not decode as JSON), _extract_parameters stores
exactly the fixed per-tool fallback map and never raises; the
quiz_generator fallback is the documented five-entry map. -/
theorem C4_extraction_fallback (tool_name : String) (llm : Except String String)
    (jsonParse : String → Option Params) (s : WorkflowState) :
    (∀ e, extractBody llm jsonParse = Except.error e →
        (extractParameters tool_name llm jsonParse s).extracted_parameters =
          fallbackParams tool_name) ∧
    fallbackParams "quiz_generator" =
      [("topic", PValue.str "general"), ("subject", PValue.str "general"),
       ("difficulty", PValue.str "intermediate"),
       ("question_type", PValue.str "practice"),
       ("num_questions", PValue.nat 10)] := by
  constructor
  · intro e he
    simp [extractParameters, he]
  · rfl

/-- witness for C4: a failed model call on the quiz tool yields the
documented quiz fallback map. -/
theorem C4_witness :
    (extractParameters "quiz_generator" (Except.error "model call failed")
        (fun _ => none) demoState).extracted_parameters =
      [("topic", PValue.str "general"), ("subject", PValue.str "general"),
       ("difficulty", PValue.str "intermediate"),
       ("question_type", PValue.str "practice"),
       ("num_questions", PValue.nat 10)] := by
  have h := C4_extraction_fallback "quiz_generator" (Except.error "model call failed")
    (fun _ => none) demoState
  rw [h.1 "model call failed" rfl, h.2]

/-- C5: for every state classified UNKNOWN, the routing function sends
the request directly to format_response, the dispatcher performs no POST
and returns the state untouched (api_response stays absent), and the
formatter produces the fixed clarification message. -/
theorem C5_unknown_short_circuit (outcome : DispatchOutcome) (dumps : Params → String)
    (s : WorkflowState) (h : s.intent = some ToolIntent.unknown) :
    routeByIntent s = "format_response" ∧
    dispatchToApi outcome s = (s, []) ∧
    formatResponse dumps s =
      Except.ok { s with final_response := some unknownClarification } := by
  refine ⟨?_, ?_, ?_⟩
  · simp [routeByIntent, h]
  · simp [dispatchToApi, h]
  · simp [formatResponse, h]

/-- witness for C5 at a concrete UNKNOWN-intent state. -/
theorem C5_witness :
    routeByIntent { demoState with intent := some ToolIntent.unknown } =
      "format_response" ∧
    dispatchToApi (DispatchOutcome.exc "refused")
        { demoState with intent := some ToolIntent.unknown } =
      ({ demoState with intent := some ToolIntent.unknown }, []) ∧
    formatResponse (fun _ => "")
        { demoState with intent := some ToolIntent.unknown } =
      Except.ok { demoState with
                  intent := some ToolIntent.unknown,
                  final_response := some unknownClarification } :=
  C5_unknown_short_circuit (DispatchOutcome.exc "refused") (fun _ => "")
    { demoState with intent := some ToolIntent.unknown } rfl

/-- C6: for every dispatched request (intent resolved and not UNKNOWN),
dispatch_to_api performs exactly one POST to the tool URL with a 60
second timeout, stores the interpreted outcome as api_response (200
keeps the body; any other status synthesizes API server error with the
status; an exception synthesizes Connection error with the message), and
format_response surfaces any unsuccessful api_response through the fixed
issue template. -/
theorem C6_dispatch_once (outcome : DispatchOutcome) (dumps : Params → String)
    (s : WorkflowState) (intent : ToolIntent) (url : String)
    (hi : s.intent = some intent) (hne : intent ≠ ToolIntent.unknown)
    (hurl : apiUrlFor intent = some url) :
    (dispatchToApi outcome s).2 = [{ url := url ++ "/invoke", timeout := 60 }] ∧
    ((dispatchToApi outcome s).1).api_response = some (interpretOutcome outcome) ∧
    (∀ body, interpretOutcome (DispatchOutcome.status 200 body) = body) ∧
    (∀ code body, code ≠ 200 →
        interpretOutcome (DispatchOutcome.status code body) =
          { success := false, data := [],
            error := some ("API server error: " ++ toString code) }) ∧
    (∀ msg, interpretOutcome (DispatchOutcome.exc msg) =
        { success := false, data := [],
          error := some ("Connection error: " ++ msg) }) ∧
    (∀ resp : ApiResp, resp.success = false →
        formatResponse dumps { s with api_response := some resp } =
          Except.ok { s with
                      api_response := some resp,
                      final_response :=
                        some (issueTemplate (resp.error.getD "Unknown error")) }) := by
  refine ⟨?_, ?_, fun body => rfl, fun code body hc => ?_, fun msg => rfl,
    fun resp hresp => ?_⟩
  · simp [dispatchToApi, hi, hne, hurl]
  · simp [dispatchToApi, hi, hne, hurl]
  · simp [interpretOutcome, hc]
  · simp [formatResponse, hi, hne, hresp]

/-- witness for C6: a timed-out quiz dispatch records one 60-second POST
to the quiz URL, synthesizes the connection error, and the formatter
surfaces it. -/
theorem C6_witness :
    (dispatchToApi (DispatchOutcome.exc "timed out")
        { demoState with intent := some ToolIntent.quiz_generator }).2 =
      [{ url := "http://localhost:8004/invoke", timeout := 60 }] ∧
    ((dispatchToApi (DispatchOutcome.exc "timed out")
        { demoState with intent := some ToolIntent.quiz_generator }).1).api_response =
      some { success := false, data := [], error := some "Connection error: timed out" } ∧
    formatResponse (fun _ => "")
        { demoState with
          intent := some ToolIntent.quiz_generator,
          api_response := some ({ success := false, data := [],
                                  error := some "Connection error: timed out" } : ApiResp) } =
      Except.ok { demoState with
                  intent := some ToolIntent.quiz_generator,
                  api_response := some ({ success := false, data := [],
                                          error := some "Connection error: timed out" } : ApiResp),
                  final_response := some (issueTemplate "Connection error: timed out") } := by
  have h := C6_dispatch_once (DispatchOutcome.exc "timed out") (fun _ => "")
    { demoState with intent := some ToolIntent.quiz_generator }
    ToolIntent.quiz_generator "http://localhost:8004" rfl (by decide) rfl
  exact ⟨h.1, by rw [h.2.1]; rfl,
    h.2.2.2.2.2 { success := false, data := [], error := some "Connection error: timed out" }
      rfl⟩

/-- C7: the intent stage never raises: a raised model call falls back to
the deterministic keyword classifier over the raw message, an LLM reply
matching no entry of the ordered keyword table does the same, and when
the keyword classifier matches nothing it returns UNKNOWN. -/
theorem C7_intent_never_raises (e reply message : String) :
    analyzeIntent (Except.error e) message = analyzeIntentKeywords message ∧
    (findIntentKeyword (replyToolName reply) = none →
        analyzeIntent (Except.ok reply) message = analyzeIntentKeywords message) ∧
    ((flashcardKeywords ++ noteKeywords ++ conceptKeywords ++ quizKeywords).all
        (fun w => !(pyIn w (pyLowerStr message))) = true →
        analyzeIntentKeywords message = ToolIntent.unknown) := by
  refine ⟨rfl, fun h => ?_, fun h => ?_⟩
  · simp [analyzeIntent, h]
  · simp [flashcardKeywords, noteKeywords, conceptKeywords, quizKeywords] at h
    simp [analyzeIntentKeywords, flashcardKeywords, noteKeywords, conceptKeywords,
      quizKeywords, h]

/-- witness for C7: a failed model call and an unmatchable reply both
fall back to the keyword classifier, which returns UNKNOWN on a message
with no keyword. -/
theorem C7_witness :
    analyzeIntent (Except.error "model offline") "good evening" =
      analyzeIntentKeywords "good evening" ∧
    analyzeIntent (Except.ok "gibberish reply") "good evening" =
      analyzeIntentKeywords "good evening" ∧
    analyzeIntentKeywords "good evening" = ToolIntent.unknown := by
  have h := C7_intent_never_raises "model offline" "gibberish reply" "good evening"
  exact ⟨h.1, h.2.1 (by decide), h.2.2 (by decide)⟩

/-- C8: the context-inference stage is a pure, idempotent function of the
message and profile data: re-running it yields the same educational
context, and it mutates no state field other than educational_context. -/
theorem C8_context_stage_pure (s : WorkflowState) :
    (analyzeEducationalContext (analyzeEducationalContext s)).educational_context =
      (analyzeEducationalContext s).educational_context ∧
    (analyzeEducationalContext s).user_id = s.user_id ∧
    (analyzeEducationalContext s).session_id = s.session_id ∧
    (analyzeEducationalContext s).message = s.message ∧
    (analyzeEducationalContext s).chat_history = s.chat_history ∧
    (analyzeEducationalContext s).user_info = s.user_info ∧
    (analyzeEducationalContext s).intent = s.intent ∧
    (analyzeEducationalContext s).extracted_parameters = s.extracted_parameters ∧
    (analyzeEducationalContext s).api_response = s.api_response ∧
    (analyzeEducationalContext s).final_response = s.final_response := by
  have hframe : ∀ ctx, contextBody okDb { s with educational_context := ctx } =
      contextBody okDb s := fun _ => rfl
  cases h : contextBody okDb s <;>
    simp [analyzeEducationalContext, analyzeEducationalContextGen, h, hframe]

/-- C9 counterexample: the id ghost-user is absent from the sample
store, yet the endpoint returns the default student123 record instead of
a 404 response. -/
theorem C9_counterexample :
    sampleUsers.find? (fun p => p.1 == "ghost-user") = none ∧
    getUserProfileEndpoint "ghost-user" = UserHttpResult.ok student123Rec ∧
    isNotFound (getUserProfileEndpoint "ghost-user") = false :=
  ⟨by decide, by decide, rfl⟩

/-- C9 (amended): GET /user/user_id returns the stored record when the
id is present in the store, and the default student123 record when it is
absent; it never answers 404 because the store lookup is total. -/
theorem C9_lookup_default (uid : String) :
    (∀ entry, sampleUsers.find? (fun p => p.1 == uid) = some entry →
        getUserProfileEndpoint uid = UserHttpResult.ok entry.2) ∧
    (sampleUsers.find? (fun p => p.1 == uid) = none →
        getUserProfileEndpoint uid = UserHttpResult.ok student123Rec) ∧
    isNotFound (getUserProfileEndpoint uid) = false := by
  refine ⟨fun entry h => ?_, fun h => ?_, rfl⟩
  · simp [getUserProfileEndpoint, dbGetUserProfile, h]
  · simp [getUserProfileEndpoint, dbGetUserProfile, h]

/-- witness for C9: a present id yields its stored record, an absent id
yields the default record. -/
theorem C9_witness :
    getUserProfileEndpoint "student456" = UserHttpResult.ok student456Rec ∧
    getUserProfileEndpoint "missing-user" = UserHttpResult.ok student123Rec :=
  ⟨(C9_lookup_default "student456").1 ("student456", student456Rec) (by decide),
   (C9_lookup_default "missing-user").2.1 (by decide)⟩

/-- C10: a message containing hard with none of the confused markers is
classified ANXIOUS, so the inferred difficulty is easy for every mastery
summary: a request for hard content yields an easy-difficulty context. -/
theorem C10_hard_request_easy (message current_state mastery_summary : String)
    (hhard : pyIn "hard" (pyLowerStr message) = true)
    (hconf : confusedMarkers.all (fun w => !(pyIn w (pyLowerStr message))) = true) :
    inferEmotionalState message current_state = EmotionalState.anxious ∧
    inferDifficulty mastery_summary (inferEmotionalState message current_state) =
      "easy" := by
  have hstate : inferEmotionalState message current_state = EmotionalState.anxious := by
    simp [confusedMarkers] at hconf
    simp [inferEmotionalState, confusedMarkers, anxiousMarkers, hconf, hhard]
  refine ⟨hstate, ?_⟩
  rw [hstate]
  rfl

/-- witness for C10: an explicit request for hard problems by a focused
level 9 student still produces an easy difficulty. -/
theorem C10_witness :
    inferEmotionalState "these problems are hard" "Focused and motivated to improve" =
      EmotionalState.anxious ∧
    inferDifficulty "Level 9: expert"
        (inferEmotionalState "these problems are hard" "Focused and motivated to improve") =
      "easy" :=
  C10_hard_request_easy "these problems are hard" "Focused and motivated to improve"
    "Level 9: expert" (by decide) (by decide)

end Tutor
